import Mathlib

/-!
Shallow embedding of the reconciliation core of `src/app.py`, a Streamlit
application that compares ERP invoice records (a SQL result, `df_sql`)
with a user-supplied control spreadsheet (`df_excel`).

Modelling conventions:
* Python strings are `String` at the interface and `List Char` internally.
* `pandas` missing values (`NaN`) are `Option` (`none` = missing cell).
* A `DataFrame` is a list of row structures plus explicit column-presence
  flags wherever the program's behaviour depends on column presence.
* `int(...)` / `float(...)` parsing is modelled over ASCII with exact
  rational semantics for floats (no IEEE rounding or overflow, no
  underscore digit grouping, no non-ASCII digits).
* An uncaught Python exception is an `Except.error` of the run.
-/

/-- Whitespace characters removed by Python `str.strip()` (ASCII subset:
space, tab, newline, carriage return, vertical tab, form feed). -/
def isPySpace (c : Char) : Bool :=
  c == ' ' || c == '\t' || c == '\n' || c == '\r' || c == Char.ofNat 11 || c == Char.ofNat 12

/-- Python `str.strip()` on a character list. -/
def pyStrip (l : List Char) : List Char :=
  ((l.dropWhile isPySpace).reverse.dropWhile isPySpace).reverse

/-- Decimal value of a digit list, most significant digit first. -/
def digitsVal (l : List Char) : Nat :=
  l.foldl (fun a c => 10 * a + (c.toNat - '0'.toNat)) 0

/-- Python `str.isdigit()` restricted to ASCII: nonempty and all decimal
digits. -/
def pyIsDigit (l : List Char) : Bool :=
  !l.isEmpty && l.all Char.isDigit

/-- Python `int(s)` on a string: strip whitespace, optional sign, then a
nonempty run of decimal digits; `none` models a raised `ValueError`. -/
def pyIntParse (l : List Char) : Option Int :=
  match pyStrip l with
  | [] => none
  | c :: r =>
    if c == '+' then if pyIsDigit r then some ((digitsVal r : Int)) else none
    else if c == '-' then if pyIsDigit r then some (-(digitsVal r : Int)) else none
    else if pyIsDigit (c :: r) then some ((digitsVal (c :: r) : Int)) else none

/-- Longest digit prefix of a list together with the rest. -/
def takeDigits (l : List Char) : List Char × List Char :=
  (l.takeWhile Char.isDigit, l.dropWhile Char.isDigit)

/-- Exponent part of a Python float literal (after the `e`/`E`): optional
sign then a nonempty digit run; returns the exponent and the rest. -/
def pyExpPart (r : List Char) : Option (Int × List Char) :=
  let sr : Int × List Char :=
    match r with
    | '+' :: q => (1, q)
    | '-' :: q => (-1, q)
    | q => (1, q)
  let dr := takeDigits sr.2
  if dr.1.isEmpty then none else some (sr.1 * (digitsVal dr.1 : Int), dr.2)

/-- Python `float(s)`: strip whitespace, optional sign, a mantissa holding
at least one digit (`123`, `123.`, `123.45`, `.45`), optional exponent.
The exact value is returned as a pair `(n, d)` denoting `n / 10 ^ d`;
`none` models a raised `ValueError` (`inf`/`nan` words are not modelled:
`int()` of those raises as well, collapsing to the same failure path). -/
def pyFloatParse (l : List Char) : Option (Int × Nat) :=
  let t := pyStrip l
  let st : Int × List Char :=
    match t with
    | '+' :: q => (1, q)
    | '-' :: q => (-1, q)
    | q => (1, q)
  let ipr := takeDigits st.2
  let fpr : List Char × List Char :=
    match ipr.2 with
    | '.' :: q => takeDigits q
    | _ => ([], ipr.2)
  if ipr.1.isEmpty && fpr.1.isEmpty then none
  else
    let eo : Option (Int × List Char) :=
      match fpr.2 with
      | 'e' :: q => pyExpPart q
      | 'E' :: q => pyExpPart q
      | q => some (0, q)
    match eo with
    | none => none
    | some (ex, rest) =>
      if !rest.isEmpty then none
      else
        let m : Nat := digitsVal (ipr.1 ++ fpr.1)
        let d : Int := (fpr.1.length : Int) - ex
        if d ≤ 0 then some (st.1 * (m : Int) * (10 : Int) ^ (-d).toNat, 0)
        else some (st.1 * (m : Int), d.toNat)

/-- Python `int(x)` applied to the float value `n / 10 ^ d`: truncation
toward zero. -/
def truncFloat (n : Int) (d : Nat) : Int :=
  if 0 ≤ n then ((n.toNat / 10 ^ d : Nat) : Int)
  else -(((-n).toNat / 10 ^ d : Nat) : Int)

/-- Python `s.split(sep)` for a one-character separator: splits on every
occurrence, keeping empty segments. -/
def splitOnChar (sep : Char) : List Char → List (List Char)
  | [] => [[]]
  | c :: r =>
    if c == sep then [] :: splitOnChar sep r
    else
      match splitOnChar sep r with
      | h :: t => (c :: h) :: t
      | [] => [[c]]

/-- Auxiliary for the substring test: does `l` start with `p`? -/
def listStartsWith : List Char → List Char → Bool
  | [], _ => true
  | _ :: _, [] => false
  | p :: ps, c :: cs => p == c && listStartsWith ps cs

/-- Python `pat in s` on character lists: contiguous-substring test. -/
def listHasSub (pat : List Char) : List Char → Bool
  | [] => pat.isEmpty
  | c :: tl => listStartsWith pat (c :: tl) || listHasSub pat tl

/-- Python `str.upper()` (ASCII letters only, as in all inputs of
interest). -/
def pyUpper (l : List Char) : List Char :=
  l.map Char.toUpper

/-- `extrair_numero_nota_sql` (app.py lines 29–36): strip, and if the
result is an all-digit string longer than 4 characters drop the first 4
characters before `int(...)`; otherwise `int(...)` of the whole string;
any exception yields the sentinel 0. -/
def extrair_numero_nota_sql (valor : String) : Int :=
  let s := pyStrip valor.toList
  if 4 < s.length && pyIsDigit s then (pyIntParse (s.drop 4)).getD 0
  else (pyIntParse s).getD 0

/-- `extrair_numero_nota_excel` (app.py lines 38–46): `NaN` yields 0;
otherwise strip, and if a `/` occurs take `int(s.split('/')[1])`, else
`int(float(s))`; any exception yields the sentinel 0. -/
def extrair_numero_nota_excel (valor : Option String) : Int :=
  match valor with
  | none => 0
  | some v =>
    let s := pyStrip v.toList
    if '/' ∈ s then
      match splitOnChar '/' s with
      | _ :: seg :: _ => (pyIntParse seg).getD 0
      | _ => 0
    else
      match pyFloatParse s with
      | some (n, d) => truncFloat n d
      | none => 0

/-- `verificar_cancelamento_excel` (app.py lines 48–50): `NaN` yields
`false`; otherwise test whether `"CANCEL"` occurs in the uppercased
string. -/
def verificar_cancelamento_excel (valor : Option String) : Bool :=
  match valor with
  | none => false
  | some v => listHasSub "CANCEL".toList (pyUpper v.toList)

/-- A raw row of the SQL fetch `df_sql` (columns used by app.py lines
160–187: `NumNfAux_nf`, `Status_nf`, plus the payload columns `Nome_pes`
and `ValorTotNota_nf` selected at line 183; the monetary payload is
modelled as `Int`, its value is never inspected by the logic). -/
structure SqlRow where
  numNfAux_nf : String
  status_nf : Int
  nome_pes : String
  valorTotNota_nf : Int
deriving DecidableEq

/-- A raw row of the parsed spreadsheet `df_excel`, after the optional
`DATA NF` date filter (app.py lines 146–151, out of the reconciliation
core). Each field is the cell of the named column, `none` for `NaN` or
for an absent column. -/
structure ExcelRow where
  noNF : Option String
  dataReceb : Option String
  valorNF : Option String
deriving DecidableEq

/-- The parsed spreadsheet: its rows plus presence flags for the columns
the program branches on (`Nº NF` at line 166, `DATA DE RECEBIMENTO` at
lines 172–173, `VALOR NF` in the merge projection at line 184). -/
structure ExcelTable where
  hasNoNF : Bool
  hasReceb : Bool
  hasValorNF : Bool
  rows : List ExcelRow
deriving DecidableEq

/-- A processed DB row as projected into the merge at app.py line 183:
columns `CHAVE`, `NumNfAux_nf`, `CANCELADO_SISTEMA`, `Nome_pes`,
`ValorTotNota_nf`. -/
structure SqlProc where
  chave : Int
  numNfAux_nf : String
  cancelado_sistema : Bool
  nome_pes : String
  valorTotNota_nf : Int
deriving DecidableEq

/-- A processed spreadsheet row as projected into the merge at app.py
line 184: columns `CHAVE`, `Nº NF`, `CANCELADO_PLANILHA`, `VALOR NF`. -/
structure ExcelProc where
  chave : Int
  noNF : Option String
  cancelado_planilha : Bool
  valorNF : Option String
deriving DecidableEq

/-- App.py lines 161–162: add the `CHAVE` and `CANCELADO_SISTEMA` columns
to a nonempty `df_sql`. -/
def processSql (rows : List SqlRow) : List SqlProc :=
  rows.map fun r =>
    { chave := extrair_numero_nota_sql r.numNfAux_nf
      numNfAux_nf := r.numNfAux_nf
      cancelado_sistema := r.status_nf == (1 : Int)
      nome_pes := r.nome_pes
      valorTotNota_nf := r.valorTotNota_nf }

/-- App.py lines 171–173: add the `CHAVE` and `CANCELADO_PLANILHA` columns
to `df_excel`; when the `DATA DE RECEBIMENTO` column is absent the whole
`CANCELADO_PLANILHA` column is the scalar `False`. -/
def processExcel (t : ExcelTable) : List ExcelProc :=
  t.rows.map fun r =>
    { chave := extrair_numero_nota_excel r.noNF
      noNF := r.noNF
      cancelado_planilha :=
        if t.hasReceb then verificar_cancelamento_excel r.dataReceb else false
      valorNF := r.valorNF }

/-- App.py line 176: `set(df_sql['CHAVE']) if not df_sql.empty else set()`. -/
def chaves_sistema (rows : List SqlRow) : Finset Int :=
  if rows.isEmpty then ∅ else ((processSql rows).map (·.chave)).toFinset

/-- App.py line 177: `set(df_excel['CHAVE'])`. -/
def chaves_planilha (t : ExcelTable) : Finset Int :=
  ((processExcel t).map (·.chave)).toFinset

/-- App.py line 179: keys present only in the DB (`so_no_sistema`); the
spec's `missingFromSpreadsheet`. -/
def so_no_sistema (rows : List SqlRow) (t : ExcelTable) : Finset Int :=
  chaves_sistema rows \ chaves_planilha t

/-- App.py line 180: keys present only in the spreadsheet
(`so_na_planilha`); the spec's `missingFromDatabase`. -/
def so_na_planilha (rows : List SqlRow) (t : ExcelTable) : Finset Int :=
  chaves_planilha t \ chaves_sistema rows

/-- App.py lines 182–186: `pd.merge(..., on='CHAVE', how='inner')`.
Standard inner-join semantics in left-key order: each DB row paired with
every spreadsheet row sharing its `CHAVE`. -/
def df_comum (rows : List SqlRow) (t : ExcelTable) : List (SqlProc × ExcelProc) :=
  (processSql rows).flatMap fun a =>
    ((processExcel t).filter fun b => b.chave == a.chave).map fun b => (a, b)

/-- App.py line 187: joined pairs whose cancellation flags differ; the
spec's `statusMismatches`. -/
def df_status_errado (rows : List SqlRow) (t : ExcelTable) : List (SqlProc × ExcelProc) :=
  (df_comum rows t).filter fun p => p.1.cancelado_sistema != p.2.cancelado_planilha

/-- How a reconciliation run can abort: `schemaError` is the explicit
`st.error` + `st.stop` when column `Nº NF` is absent (app.py lines
166–169); `keyError` is an uncaught pandas `KeyError` raised by a column
projection naming absent columns (app.py lines 183–184). -/
inductive RunError where
  | schemaError
  | keyError (cols : List String)
deriving DecidableEq

/-- The spec's `ReconciliationResult`, holding the code's `so_no_sistema`
(= `missingFromSpreadsheet`), `so_na_planilha` (= `missingFromDatabase`)
and `df_status_errado` (= `statusMismatches`). -/
structure ReconciliationResult where
  so_no_sistema : Finset Int
  so_na_planilha : Finset Int
  df_status_errado : List (SqlProc × ExcelProc)
deriving DecidableEq

/-- The reconciliation core, app.py lines 159–200, in program order:
lines 160–164 process a nonempty `df_sql` or replace an empty one by a
fallback frame with columns `['CHAVE', 'NumNfAux_nf', 'Status_nf',
'CANCELADO_SISTEMA']` only; lines 166–169 abort with the schema error if
`Nº NF` is absent; line 183 projects `df_sql` onto five columns and
raises `KeyError` on the fallback frame (it lacks `Nome_pes` and
`ValorTotNota_nf`); line 184 projects `df_excel` onto four columns and
raises `KeyError` when `VALOR NF` is absent; otherwise the three result
categories are produced. -/
def runPipeline (rows : List SqlRow) (t : ExcelTable) : Except RunError ReconciliationResult :=
  if !t.hasNoNF then .error .schemaError
  else if rows.isEmpty then .error (.keyError ["Nome_pes", "ValorTotNota_nf"])
  else if !t.hasValorNF then .error (.keyError ["VALOR NF"])
  else .ok
    { so_no_sistema := so_no_sistema rows t
      so_na_planilha := so_na_planilha rows t
      df_status_errado := df_status_errado rows t }

/-! Helper lemmas about the Python string primitives. -/

theorem dropWhile_eq_self_of_not {f : Char → Bool} {l : List Char}
    (h : ∀ c ∈ l, f c = false) : l.dropWhile f = l := by
  cases l with
  | nil => rfl
  | cons c r => simp [List.dropWhile, h c (by simp)]

theorem pyStrip_eq_self {l : List Char} (h : ∀ c ∈ l, isPySpace c = false) :
    pyStrip l = l := by
  unfold pyStrip
  rw [dropWhile_eq_self_of_not h,
    dropWhile_eq_self_of_not (fun c hc => h c (List.mem_reverse.mp hc)),
    List.reverse_reverse]

theorem isPySpace_eq_false_of_isDigit {c : Char} (h : c.isDigit = true) :
    isPySpace c = false := by
  have h1 : c ≠ ' ' := by rintro rfl; exact absurd h (by decide)
  have h2 : c ≠ '\t' := by rintro rfl; exact absurd h (by decide)
  have h3 : c ≠ '\n' := by rintro rfl; exact absurd h (by decide)
  have h4 : c ≠ '\r' := by rintro rfl; exact absurd h (by decide)
  have h5 : c ≠ Char.ofNat 11 := by rintro rfl; exact absurd h (by decide)
  have h6 : c ≠ Char.ofNat 12 := by rintro rfl; exact absurd h (by decide)
  simp [isPySpace, h1, h2, h3, h4, h5, h6]

theorem pyIsDigit_all {l : List Char} (h : pyIsDigit l = true) :
    ∀ c ∈ l, c.isDigit = true := by
  have := (Bool.and_eq_true _ _).mp h
  simpa [List.all_eq_true] using this.2

theorem pyIntParse_digits {l : List Char} (h : pyIsDigit l = true) :
    pyIntParse l = some ((digitsVal l : Int)) := by
  have hall : ∀ c ∈ l, c.isDigit = true := pyIsDigit_all h
  have hstrip : pyStrip l = l :=
    pyStrip_eq_self fun c hc => isPySpace_eq_false_of_isDigit (hall c hc)
  cases l with
  | nil => simp [pyIsDigit] at h
  | cons c r =>
    have hc : c.isDigit = true := hall c (by simp)
    have hcp : (c == '+') = false := by
      refine beq_eq_false_iff_ne.mpr ?_
      rintro rfl; exact absurd hc (by decide)
    have hcm : (c == '-') = false := by
      refine beq_eq_false_iff_ne.mpr ?_
      rintro rfl; exact absurd hc (by decide)
    simp [pyIntParse, hstrip, hcp, hcm, h]

theorem pyIsDigit_drop4 {l : List Char} (h : pyIsDigit l = true)
    (hl : 4 < l.length) : pyIsDigit (l.drop 4) = true := by
  have h1 : (l.drop 4).all Char.isDigit = true := by
    rw [List.all_eq_true]
    exact fun c hc => pyIsDigit_all h c (List.drop_subset 4 l hc)
  have h2 : l.drop 4 ≠ [] :=
    List.ne_nil_of_length_pos (by rw [List.length_drop]; omega)
  simp [pyIsDigit, h1, h2]

theorem splitOnChar_no_sep {sep : Char} {b : List Char} (h : sep ∉ b) :
    splitOnChar sep b = [b] := by
  induction b with
  | nil => rfl
  | cons c r ih =>
    have hc : (c == sep) = false := by
      refine beq_eq_false_iff_ne.mpr ?_
      rintro rfl; exact h (by simp)
    have hr : sep ∉ r := fun hm => h (by simp [hm])
    simp [splitOnChar, hc, ih hr]

theorem splitOnChar_append {sep : Char} {a r : List Char} (h : sep ∉ a) :
    splitOnChar sep (a ++ sep :: r) = a :: splitOnChar sep r := by
  induction a with
  | nil => simp [splitOnChar]
  | cons c q ih =>
    have hc : (c == sep) = false := by
      refine beq_eq_false_iff_ne.mpr ?_
      rintro rfl; exact h (by simp)
    have hq : sep ∉ q := fun hm => h (by simp [hm])
    simp [splitOnChar, hc, ih hq]

theorem listStartsWith_iff (p : List Char) : ∀ l : List Char,
    listStartsWith p l = true ↔ ∃ t, l = p ++ t := by
  induction p with
  | nil => intro l; simp [listStartsWith]
  | cons c ps ih =>
    intro l
    cases l with
    | nil => simp [listStartsWith]
    | cons d ds =>
      simp only [listStartsWith, Bool.and_eq_true, beq_iff_eq, ih, List.cons_append,
        List.cons.injEq]
      constructor
      · rintro ⟨rfl, t, rfl⟩; exact ⟨t, rfl, rfl⟩
      · rintro ⟨t, rfl, rfl⟩; exact ⟨rfl, t, rfl⟩

theorem listHasSub_iff (pat : List Char) : ∀ l : List Char,
    listHasSub pat l = true ↔ ∃ pre post, l = pre ++ pat ++ post := by
  intro l
  induction l with
  | nil =>
    simp only [listHasSub, List.isEmpty_iff]
    constructor
    · rintro rfl; exact ⟨[], [], rfl⟩
    · rintro ⟨pre, post, hp⟩
      rcases List.append_eq_nil.mp hp.symm with ⟨h1, -⟩
      exact (List.append_eq_nil.mp h1).2
  | cons c tl ih =>
    simp only [listHasSub, Bool.or_eq_true, listStartsWith_iff, ih]
    constructor
    · rintro (⟨t, ht⟩ | ⟨pre, post, hp⟩)
      · exact ⟨[], t, by simpa using ht⟩
      · exact ⟨c :: pre, post, by simp [hp]⟩
    · rintro ⟨pre, post, hp⟩
      cases pre with
      | nil => exact Or.inl ⟨post, by simpa using hp⟩
      | cons p pre2 =>
        have h2 : c = p ∧ tl = pre2 ++ pat ++ post := by simpa using hp
        exact Or.inr ⟨pre2, post, h2.2⟩

theorem floor_natCast_div_pow (k d : ℕ) :
    ⌊(k : ℚ) / (10 : ℚ) ^ d⌋ = ((k / 10 ^ d : ℕ) : Int) := by
  have hpos : (0 : ℚ) < (10 : ℚ) ^ d := by positivity
  rw [Int.floor_eq_iff]
  constructor
  · rw [le_div_iff₀ hpos]
    have h1 : (k / 10 ^ d) * 10 ^ d ≤ k := Nat.div_mul_le_self k (10 ^ d)
    exact_mod_cast h1
  · rw [div_lt_iff₀ hpos]
    have hm : 0 < 10 ^ d := Nat.pos_pow_of_pos d (by norm_num)
    have h2 : k < (k / 10 ^ d + 1) * 10 ^ d :=
      (Nat.div_lt_iff_lt_mul hm).mp (Nat.lt_succ_self _)
    exact_mod_cast h2

theorem truncFloat_eq (n : Int) (d : Nat) :
    truncFloat n d =
      if 0 ≤ n then ⌊(n : ℚ) / (10 : ℚ) ^ d⌋ else ⌈(n : ℚ) / (10 : ℚ) ^ d⌉ := by
  by_cases h : 0 ≤ n
  · rw [if_pos h]
    unfold truncFloat
    rw [if_pos h, ← floor_natCast_div_pow n.toNat d]
    have hn : ((n.toNat : ℚ)) = ((n : ℤ) : ℚ) := by exact_mod_cast Int.toNat_of_nonneg h
    rw [hn]
  · rw [if_neg h]
    unfold truncFloat
    rw [if_neg h]
    have hn : (((-n).toNat : ℚ)) = ((-n : ℤ) : ℚ) := by
      exact_mod_cast Int.toNat_of_nonneg (by omega)
    have hx : ((n : ℤ) : ℚ) / (10 : ℚ) ^ d = -(((-n).toNat : ℚ) / (10 : ℚ) ^ d) := by
      rw [hn]; push_cast; ring
    rw [hx, Int.ceil_neg, floor_natCast_div_pow]

example : extrair_numero_nota_sql "123" = 123 := by decide
example : extrair_numero_nota_sql "123456" = 56 := by decide
example : extrair_numero_nota_sql " 0042 " = 42 := by decide
example : extrair_numero_nota_sql "-123" = -123 := by decide
example : extrair_numero_nota_sql "12a" = 0 := by decide
example : extrair_numero_nota_sql "" = 0 := by decide
example : extrair_numero_nota_excel (some "001/4532") = 4532 := by decide
example : extrair_numero_nota_excel (some "4532.0") = 4532 := by decide
example : extrair_numero_nota_excel (some "1/2/3") = 2 := by decide
example : extrair_numero_nota_excel none = 0 := by decide
example : extrair_numero_nota_excel (some "") = 0 := by decide
example : extrair_numero_nota_excel (some "1e3") = 1000 := by decide
example : extrair_numero_nota_excel (some "-2.7") = -2 := by decide
example : verificar_cancelamento_excel (some "Pedido Cancelled em 01/01") = true := by decide
example : verificar_cancelamento_excel (some "Recebido em 01/01") = false := by decide
example : verificar_cancelamento_excel (some "cancel") = true := by decide

-- concrete checks of the pipeline embedding
example :
    runPipeline []
      { hasNoNF := true, hasReceb := true, hasValorNF := true
        rows := [{ noNF := some "10", dataReceb := none, valorNF := some "1" },
                 { noNF := some "20", dataReceb := none, valorNF := some "2" }] }
      = .error (.keyError ["Nome_pes", "ValorTotNota_nf"]) := rfl

example :
    so_na_planilha []
      { hasNoNF := true, hasReceb := true, hasValorNF := true
        rows := [{ noNF := some "10", dataReceb := none, valorNF := some "1" },
                 { noNF := some "20", dataReceb := none, valorNF := some "2" }] }
      = ({10, 20} : Finset Int) := by decide

example :
    runPipeline [{ numNfAux_nf := "7", status_nf := 1, nome_pes := "A", valorTotNota_nf := 10 }]
      { hasNoNF := true, hasReceb := false, hasValorNF := true
        rows := [{ noNF := some "7", dataReceb := none, valorNF := some "x" }] }
      = .ok
        { so_no_sistema := ∅
          so_na_planilha := ∅
          df_status_errado :=
            [({ chave := 7, numNfAux_nf := "7", cancelado_sistema := true
                nome_pes := "A", valorTotNota_nf := 10 },
              { chave := 7, noNF := some "7", cancelado_planilha := false
                valorNF := some "x" })] } := rfl

/-! Inversion of a successful run. -/

theorem runPipeline_ok_inv {rows : List SqlRow} {t : ExcelTable}
    {r : ReconciliationResult} (h : runPipeline rows t = .ok r) :
    t.hasNoNF = true ∧ rows.isEmpty = false ∧ t.hasValorNF = true ∧
      r = { so_no_sistema := so_no_sistema rows t
            so_na_planilha := so_na_planilha rows t
            df_status_errado := df_status_errado rows t } := by
  cases hN : t.hasNoNF with
  | false => simp [runPipeline, hN] at h
  | true =>
    cases hE : rows.isEmpty with
    | true => simp [runPipeline, hN, hE] at h
    | false =>
      cases hV : t.hasValorNF with
      | false => simp [runPipeline, hN, hE, hV] at h
      | true =>
        simp only [runPipeline, hN, hE, hV, Bool.not_true, Bool.false_eq_true,
          if_false, Except.ok.injEq] at h
        exact ⟨rfl, rfl, rfl, h.symm⟩

/-- Fixture: a two-row spreadsheet with keys 10 and 20, all columns
present. -/
def sheetC1 : ExcelTable :=
  { hasNoNF := true, hasReceb := true, hasValorNF := true
    rows := [{ noNF := some "10", dataReceb := none, valorNF := some "100" },
             { noNF := some "20", dataReceb := none, valorNF := some "200" }] }

/-- C1: the claim says an empty DB fetch still yields a completed
`ReconciliationResult` with `missingFromDatabase = {10, 20}`.  The code
instead aborts: with an empty `df_sql` the fallback frame built at app.py
line 164 lacks the columns `Nome_pes` and `ValorTotNota_nf`, so the
projection at line 183 raises an uncaught `KeyError` before any result is
stored — even though the key sets the code computes just before (lines
179–180) are exactly the claimed ones, witnessing the intent. -/
theorem claim_C1_empty_db_keyerror :
    runPipeline [] sheetC1 = .error (.keyError ["Nome_pes", "ValorTotNota_nf"]) ∧
    so_na_planilha [] sheetC1 = ({10, 20} : Finset Int) ∧
    so_no_sistema [] sheetC1 = (∅ : Finset Int) ∧
    df_status_errado [] sheetC1 = [] := by
  refine ⟨rfl, by decide, by decide, rfl⟩

/-- C9: a spreadsheet without the `Nº NF` column aborts the run with the
schema error before any comparison, producing no result. -/
theorem claim_C9_schema_abort (rows : List SqlRow) (t : ExcelTable)
    (h : t.hasNoNF = false) : runPipeline rows t = .error .schemaError := by
  simp [runPipeline, h]

/-- Fixture: a one-row spreadsheet lacking the `Nº NF` column. -/
def sheetNoKey : ExcelTable :=
  { hasNoNF := false, hasReceb := true, hasValorNF := true
    rows := [{ noNF := none, dataReceb := none, valorNF := some "1" }] }

theorem claim_C9_witness :
    runPipeline [] sheetNoKey = .error .schemaError :=
  claim_C9_schema_abort [] sheetNoKey rfl

/-- Fixture: a one-row DB fetch. -/
def dbC2 : List SqlRow :=
  [{ numNfAux_nf := "10", status_nf := 0, nome_pes := "X", valorTotNota_nf := 1 }]

/-- Fixture: a spreadsheet exposing `Nº NF` but neither `DATA NF`,
`DATA DE RECEBIMENTO` nor `VALOR NF`. -/
def sheetNoValor : ExcelTable :=
  { hasNoNF := true, hasReceb := false, hasValorNF := false
    rows := [{ noNF := some "10", dataReceb := none, valorNF := none }] }

/-- C2 is refuted: this spreadsheet exposes `Nº NF` and lacks only the
three optional columns, yet the run does not complete — the `df_excel`
projection at app.py line 184 raises an uncaught `KeyError` on the
absent `VALOR NF` column. -/
theorem claim_C2_counterexample :
    sheetNoValor.hasNoNF = true ∧
    runPipeline dbC2 sheetNoValor = .error (.keyError ["VALOR NF"]) :=
  ⟨rfl, rfl⟩

/-- C2 amended: the run fails with the schema error exactly when `Nº NF`
is absent, and (for a nonempty DB fetch) completes with a result whenever
the sheet exposes both `Nº NF` and `VALOR NF`, even without `DATA NF` and
`DATA DE RECEBIMENTO`. -/
theorem claim_C2_amended (rows : List SqlRow) (t : ExcelTable) :
    (runPipeline rows t = .error .schemaError ↔ t.hasNoNF = false) ∧
    (t.hasNoNF = true → rows ≠ [] → t.hasValorNF = true →
      ∃ r, runPipeline rows t = .ok r) := by
  constructor
  · constructor
    · intro h
      cases hN : t.hasNoNF with
      | false => rfl
      | true =>
        exfalso
        cases hE : rows.isEmpty with
        | true => simp [runPipeline, hN, hE] at h
        | false =>
          cases hV : t.hasValorNF with
          | false => simp [runPipeline, hN, hE, hV] at h
          | true => simp [runPipeline, hN, hE, hV] at h
    · intro h; simp [runPipeline, h]
  · intro h1 h2 h3
    have hE : rows.isEmpty = false := by
      cases rows with
      | nil => exact absurd rfl h2
      | cons a l => rfl
    exact ⟨{ so_no_sistema := so_no_sistema rows t
             so_na_planilha := so_na_planilha rows t
             df_status_errado := df_status_errado rows t },
           by simp [runPipeline, h1, hE, h3]⟩

/-- Fixture: like `sheetNoValor` but with the `VALOR NF` column present. -/
def sheetComValor : ExcelTable :=
  { hasNoNF := true, hasReceb := false, hasValorNF := true
    rows := [{ noNF := some "10", dataReceb := none, valorNF := some "1" }] }

theorem claim_C2_witness :
    (runPipeline dbC2 sheetNoKey = .error .schemaError ↔ sheetNoKey.hasNoNF = false) ∧
    ∃ r, runPipeline dbC2 sheetComValor = .ok r :=
  ⟨(claim_C2_amended dbC2 sheetNoKey).1,
   (claim_C2_amended dbC2 sheetComValor).2 rfl (by decide) rfl⟩

/-- C7: the two "missing" categories are the set differences of the
distinct-key sets, hence each is disjoint from the intersection and
rebuilds its side's key set together with it. -/
theorem claim_C7_set_algebra (rows : List SqlRow) (t : ExcelTable) :
    so_no_sistema rows t = chaves_sistema rows \ chaves_planilha t ∧
    so_na_planilha rows t = chaves_planilha t \ chaves_sistema rows ∧
    so_no_sistema rows t ∪ chaves_sistema rows ∩ chaves_planilha t = chaves_sistema rows ∧
    so_no_sistema rows t ∩ (chaves_sistema rows ∩ chaves_planilha t) = ∅ ∧
    so_na_planilha rows t ∪ chaves_planilha t ∩ chaves_sistema rows = chaves_planilha t ∧
    so_na_planilha rows t ∩ (chaves_planilha t ∩ chaves_sistema rows) = ∅ := by
  refine ⟨rfl, rfl, ?_, ?_, ?_, ?_⟩ <;>
    · ext x
      simp only [so_no_sistema, so_na_planilha, Finset.mem_union, Finset.mem_inter,
        Finset.mem_sdiff, Finset.not_mem_empty, iff_false, Finset.mem_sdiff]
      tauto

/-- C8: every pair reported in `statusMismatches` carries a key present
in both the DB key set and the sheet key set, since the inner join pairs
a DB row with a sheet row of equal `CHAVE`. -/
theorem claim_C8_statusMismatch_keys (rows : List SqlRow) (t : ExcelTable)
    (r : ReconciliationResult) (hrun : runPipeline rows t = .ok r) :
    ∀ p ∈ r.df_status_errado,
      p.1.chave ∈ chaves_sistema rows ∧ p.1.chave ∈ chaves_planilha t := by
  obtain ⟨hN, hE, hV, rfl⟩ := runPipeline_ok_inv hrun
  intro p hp
  replace hp : p ∈ df_comum rows t := List.mem_of_mem_filter hp
  simp only [df_comum, List.mem_flatMap, List.mem_map, List.mem_filter] at hp
  obtain ⟨a, ha, b, ⟨hb, hbe⟩, rfl⟩ := hp
  have hba : b.chave = a.chave := by simpa using hbe
  constructor
  · simp only [chaves_sistema, hE, Bool.false_eq_true, if_false, List.mem_toFinset,
      List.mem_map]
    exact ⟨a, ha, rfl⟩
  · simp only [chaves_planilha, List.mem_toFinset, List.mem_map]
    exact ⟨b, hb, hba⟩

/-- Fixture: one cancelled DB row with key 100. -/
def dbC8 : List SqlRow :=
  [{ numNfAux_nf := "100", status_nf := 1, nome_pes := "A", valorTotNota_nf := 10 }]

/-- Fixture: one non-cancelled sheet row with key 100, all columns
present. -/
def sheetC8 : ExcelTable :=
  { hasNoNF := true, hasReceb := true, hasValorNF := true
    rows := [{ noNF := some "100", dataReceb := some "Recebido", valorNF := some "10" }] }

/-- Fixture: the single status-mismatch pair the run on `dbC8` and
`sheetC8` produces. -/
def pairC8 : SqlProc × ExcelProc :=
  ({ chave := 100, numNfAux_nf := "100", cancelado_sistema := true
     nome_pes := "A", valorTotNota_nf := 10 },
   { chave := 100, noNF := some "100", cancelado_planilha := false, valorNF := some "10" })

/-- Fixture: the full result of the run on `dbC8` and `sheetC8`. -/
def resC8 : ReconciliationResult :=
  { so_no_sistema := ∅, so_na_planilha := ∅, df_status_errado := [pairC8] }

theorem claim_C8_witness :
    pairC8.1.chave ∈ chaves_sistema dbC8 ∧ pairC8.1.chave ∈ chaves_planilha sheetC8 :=
  claim_C8_statusMismatch_keys dbC8 sheetC8 resC8 rfl pairC8 (List.mem_singleton_self pairC8)

/-- C10: without a `DATA DE RECEBIMENTO` column every sheet record is
classified not-cancelled (app.py line 173 assigns the scalar `False`), so
the mismatch report is exactly the joined pairs whose DB side is
cancelled. -/
theorem claim_C10_no_receb_column (rows : List SqlRow) (t : ExcelTable)
    (hR : t.hasReceb = false) (r : ReconciliationResult)
    (hrun : runPipeline rows t = .ok r) :
    r.df_status_errado = (df_comum rows t).filter (fun p => p.1.cancelado_sistema) ∧
    ∀ p ∈ df_comum rows t, p.2.cancelado_planilha = false := by
  have hall : ∀ p ∈ df_comum rows t, p.2.cancelado_planilha = false := by
    intro p hp
    simp only [df_comum, List.mem_flatMap, List.mem_map, List.mem_filter] at hp
    obtain ⟨a, ha, b, ⟨hb, hbe⟩, rfl⟩ := hp
    simp only [processExcel, List.mem_map] at hb
    obtain ⟨row, hrow, rfl⟩ := hb
    simp [hR]
  refine ⟨?_, hall⟩
  obtain ⟨hN, hE, hV, rfl⟩ := runPipeline_ok_inv hrun
  show df_status_errado rows t = _
  rw [df_status_errado]
  apply List.filter_congr
  intro p hp
  rw [hall p hp]
  cases p.1.cancelado_sistema <;> rfl

/-- Fixture: one cancelled DB row with key 7. -/
def dbC10 : List SqlRow :=
  [{ numNfAux_nf := "7", status_nf := 1, nome_pes := "A", valorTotNota_nf := 10 }]

/-- Fixture: a sheet with key 7 whose `DATA DE RECEBIMENTO` column is
absent (its cell text would even say cancelled, but it is never read). -/
def sheetC10 : ExcelTable :=
  { hasNoNF := true, hasReceb := false, hasValorNF := true
    rows := [{ noNF := some "7", dataReceb := some "CANCELADO", valorNF := some "x" }] }

/-- Fixture: the full result of the run on `dbC10` and `sheetC10`. -/
def resC10 : ReconciliationResult :=
  { so_no_sistema := ∅, so_na_planilha := ∅
    df_status_errado :=
      [({ chave := 7, numNfAux_nf := "7", cancelado_sistema := true
          nome_pes := "A", valorTotNota_nf := 10 },
        { chave := 7, noNF := some "7", cancelado_planilha := false, valorNF := some "x" })] }

theorem claim_C10_witness :
    resC10.df_status_errado = (df_comum dbC10 sheetC10).filter (fun p => p.1.cancelado_sistema) :=
  (claim_C10_no_receb_column dbC10 sheetC10 rfl resC10 rfl).1

/-- Modelled from the spec's words for the slash case of
`normalizeSheetKey` (§4.1: "split on the first `/` and parse the second
segment", glossed by C3 as "everything after that first `/`"), kept for
comparison against the code's `extrair_numero_nota_excel`. -/
def normalizeSheetKeySpecSlash (v : String) : Int :=
  let s := pyStrip v.toList
  (pyIntParse ((s.dropWhile fun c => !(c == '/')).drop 1)).getD 0

/-- C3 is refuted at "1/2/3": the code takes `split('/')[1]`, the segment
between the first and second slash, giving 2; parsing "everything after
the first slash" ("2/3") fails, so the claim predicts the sentinel 0. -/
theorem claim_C3_counterexample :
    extrair_numero_nota_excel (some "1/2/3") = 2 ∧
    normalizeSheetKeySpecSlash "1/2/3" = 0 ∧ (2 : Int) ≠ 0 :=
  ⟨by decide, by decide, by decide⟩

/-- C3 amended: on a trimmed input decomposing as `a ++ '/' :: b ++ suf`
with `a` and `b` slash-free and `suf` empty or starting with a further
slash (so `b` is the second field of the split), the result is the
integer parse of `b`, sentinel 0 on failure. -/
theorem claim_C3_amended (v : String) (a b suf : List Char)
    (hs : pyStrip v.toList = a ++ '/' :: (b ++ suf))
    (ha : '/' ∉ a) (hb : '/' ∉ b)
    (hsuf : suf = [] ∨ ∃ suf2, suf = '/' :: suf2) :
    extrair_numero_nota_excel (some v) = (pyIntParse b).getD 0 := by
  simp only [String.toList] at hs
  have hmem : '/' ∈ pyStrip v.data := by rw [hs]; simp
  rcases hsuf with rfl | ⟨suf2, rfl⟩
  · have h2 : splitOnChar '/' (pyStrip v.data) = [a, b] := by
      rw [hs, List.append_nil, splitOnChar_append ha, splitOnChar_no_sep hb]
    simp [extrair_numero_nota_excel, hmem, h2]
  · have h2 : splitOnChar '/' (pyStrip v.data) = a :: b :: splitOnChar '/' suf2 := by
      rw [hs, splitOnChar_append ha, splitOnChar_append hb]
    simp [extrair_numero_nota_excel, hmem, h2]

theorem claim_C3_witness :
    extrair_numero_nota_excel (some "001/4532") = 4532 :=
  (claim_C3_amended "001/4532" ['0', '0', '1'] ['4', '5', '3', '2'] []
    (by decide) (by decide) (by decide) (Or.inl rfl)).trans (by decide)

/-- C4: `extrair_numero_nota_sql` maps a trimmed digit string of length
at most 4 to its decimal value, a longer digit string to the value of its
last `length - 4` digits, and any input whose trimmed form does not parse
as a Python integer to the sentinel 0. -/
theorem claim_C4_normalizeDbKey (v : String) :
    (pyIsDigit (pyStrip v.toList) = true → (pyStrip v.toList).length ≤ 4 →
      extrair_numero_nota_sql v = (digitsVal (pyStrip v.toList) : Int)) ∧
    (pyIsDigit (pyStrip v.toList) = true → 4 < (pyStrip v.toList).length →
      extrair_numero_nota_sql v = (digitsVal ((pyStrip v.toList).drop 4) : Int)) ∧
    (pyIntParse (pyStrip v.toList) = none → extrair_numero_nota_sql v = 0) := by
  refine ⟨?_, ?_, ?_⟩
  · intro hd hlen
    have hg : (decide (4 < (pyStrip v.toList).length) && pyIsDigit (pyStrip v.toList)) = false := by
      rw [decide_eq_false (Nat.not_lt.mpr hlen), Bool.false_and]
    simp only [extrair_numero_nota_sql, hg, Bool.false_eq_true, if_false,
      pyIntParse_digits hd, Option.getD_some]
  · intro hd hlen
    have hg : (decide (4 < (pyStrip v.toList).length) && pyIsDigit (pyStrip v.toList)) = true := by
      rw [decide_eq_true hlen, hd, Bool.true_and]
    simp only [extrair_numero_nota_sql, hg]
    rw [if_pos trivial, pyIntParse_digits (pyIsDigit_drop4 hd hlen)]
    rfl
  · intro h
    simp only [extrair_numero_nota_sql]
    cases hg : (decide (4 < (pyStrip v.toList).length) && pyIsDigit (pyStrip v.toList)) with
    | true =>
      rw [pyIntParse_digits ((Bool.and_eq_true _ _).mp hg).2] at h
      exact absurd h (by simp)
    | false =>
      simp only [hg, Bool.false_eq_true, if_false, h, Option.getD_none]

theorem claim_C4_witness :
    extrair_numero_nota_sql "123" = 123 ∧
    extrair_numero_nota_sql "123456" = 56 ∧
    extrair_numero_nota_sql "12a" = 0 :=
  ⟨((claim_C4_normalizeDbKey "123").1 (by decide) (by decide)).trans (by decide),
   ((claim_C4_normalizeDbKey "123456").2.1 (by decide) (by decide)).trans (by decide),
   (claim_C4_normalizeDbKey "12a").2.2 (by decide)⟩

/-- C5: `extrair_numero_nota_excel` returns 0 for a missing value and for
the empty string; a slash-free string is parsed as a decimal (float)
number and truncated toward zero (floor for nonnegative values, ceiling
for negative ones), so "4532.0" yields 4532; a failed parse yields the
sentinel 0. -/
theorem claim_C5_normalizeSheetKey :
    extrair_numero_nota_excel none = 0 ∧
    extrair_numero_nota_excel (some "") = 0 ∧
    extrair_numero_nota_excel (some "4532.0") = 4532 ∧
    (∀ (v : String) (n : Int) (d : Nat), '/' ∉ pyStrip v.toList →
      pyFloatParse (pyStrip v.toList) = some (n, d) →
      extrair_numero_nota_excel (some v) =
        if 0 ≤ n then ⌊(n : ℚ) / (10 : ℚ) ^ d⌋ else ⌈(n : ℚ) / (10 : ℚ) ^ d⌉) ∧
    (∀ v : String, '/' ∉ pyStrip v.toList → pyFloatParse (pyStrip v.toList) = none →
      extrair_numero_nota_excel (some v) = 0) := by
  refine ⟨rfl, by decide, by decide, ?_, ?_⟩
  · intro v n d hmem hparse
    simp only [String.toList] at hmem hparse
    rw [← truncFloat_eq]
    simp [extrair_numero_nota_excel, hmem, hparse]
  · intro v hmem hparse
    simp only [String.toList] at hmem hparse
    simp [extrair_numero_nota_excel, hmem, hparse]

theorem claim_C5_witness :
    extrair_numero_nota_excel (some "-2.7") = ⌈((-27 : ℤ) : ℚ) / (10 : ℚ) ^ 1⌉ ∧
    extrair_numero_nota_excel (some "abc") = 0 := by
  constructor
  · have h := claim_C5_normalizeSheetKey.2.2.2.1 "-2.7" (-27) 1 (by decide) (by decide)
    rw [h, if_neg (by norm_num)]
  · exact claim_C5_normalizeSheetKey.2.2.2.2 "abc" (by decide) (by decide)

/-- C6: the spreadsheet cancellation flag is `false` for a missing
receipt field and otherwise holds exactly when "CANCEL" occurs as a
contiguous substring of the uppercased field. -/
theorem claim_C6_classifySheetCancelled :
    verificar_cancelamento_excel none = false ∧
    verificar_cancelamento_excel (some "CANCELADO") = true ∧
    verificar_cancelamento_excel (some "cancel") = true ∧
    verificar_cancelamento_excel (some "Pedido Cancelled em 01/01") = true ∧
    verificar_cancelamento_excel (some "") = false ∧
    verificar_cancelamento_excel (some "Recebido em 01/01") = false ∧
    ∀ v : String, verificar_cancelamento_excel (some v) = true ↔
      ∃ pre post, pyUpper v.toList = pre ++ "CANCEL".toList ++ post := by
  refine ⟨rfl, by decide, by decide, by decide, by decide, by decide, ?_⟩
  intro v
  exact listHasSub_iff "CANCEL".toList (pyUpper v.toList)
